import Mathlib

/- Verification development for the st_api_gateway repository.
   Shallow embedding of the request-proxy dataplane (src/services/circuit.py),
   the proxy handler classification (src/main.py), the health probe
   (src/services/health_service.py) and the dashboard aggregation
   (src/routes/health.py). Machine strings are List Char wrapped in String;
   wall-clock times and timeouts are Rat; Python ints are Int. -/

/- ---------- generic list/string utilities (Python "startswith" / "in") ---------- -/

/-- Boolean prefix test on character lists; models Python str.startswith. -/
def isPrefixL : List Char → List Char → Bool
  | [], _ => true
  | _ :: _, [] => false
  | a :: as, b :: bs => a == b && isPrefixL as bs

/-- Boolean substring test on character lists; models the Python operator
    needle in haystack on strings. -/
def containsL : List Char → List Char → Bool
  | n, [] => isPrefixL n []
  | n, c :: cs => isPrefixL n (c :: cs) || containsL n cs

/-- Lower-casing of a character list; models Python str.lower on ASCII data. -/
def lowerL (l : List Char) : List Char := l.map Char.toLower

/-- String wrapper for the substring test. -/
def strContains (hay needle : String) : Bool := containsL needle.data hay.data

/-- String wrapper for lower-casing. -/
def lowerS (s : String) : String := String.mk (lowerL s.data)

theorem isPrefixL_map (f : Char → Char) :
    ∀ n l, isPrefixL n l = true → isPrefixL (n.map f) (l.map f) = true := by
  intro n
  induction n with
  | nil => intro l _; simp [isPrefixL, List.map]
  | cons a as ih =>
    intro l h
    cases l with
    | nil => simp [isPrefixL] at h
    | cons b bs =>
      simp only [isPrefixL, Bool.and_eq_true, beq_iff_eq] at h
      simp only [List.map, isPrefixL, Bool.and_eq_true, beq_iff_eq]
      exact ⟨by rw [h.1], ih bs h.2⟩

theorem isPrefixL_containsL (n l : List Char) (h : isPrefixL n l = true) :
    containsL n l = true := by
  cases l with
  | nil => simpa [containsL] using h
  | cons c cs => simp [containsL, h]

theorem containsL_map (f : Char → Char) :
    ∀ n l, containsL n l = true → containsL (n.map f) (l.map f) = true := by
  intro n l
  induction l with
  | nil =>
    intro h
    simp only [containsL] at h ⊢
    cases n with
    | nil => simp [isPrefixL]
    | cons a as => simp [isPrefixL] at h
  | cons c cs ih =>
    intro h
    simp only [containsL, Bool.or_eq_true] at h
    rcases h with h | h
    · simp only [List.map, containsL, Bool.or_eq_true]
      exact Or.inl (isPrefixL_map f n (c :: cs) h)
    · simp only [List.map, containsL, Bool.or_eq_true]
      exact Or.inr (ih h)

theorem containsL_append_left (n : List Char) :
    ∀ pre l, containsL n l = true → containsL n (pre ++ l) = true := by
  intro pre
  induction pre with
  | nil => intro l h; simpa using h
  | cons p ps ih =>
    intro l h
    simp only [List.cons_append, containsL, Bool.or_eq_true]
    exact Or.inr (ih l h)

theorem string_data_append (a b : String) : (a ++ b).data = a.data ++ b.data := by
  cases a; cases b; rfl

theorem string_append_assoc (a b c : String) : a ++ b ++ c = a ++ (b ++ c) := by
  cases a with
  | mk la =>
    cases b with
    | mk lb =>
      cases c with
      | mk lc => exact congrArg String.mk (List.append_assoc la lb lc)

/- ---------- SSE classification (src/main.py line 194, src/services/circuit.py lines 116-119) ---------- -/

/-- Models src/main.py line 194: the proxy handler treats a request as SSE, and
    bypasses the admission semaphore, iff the path starts with the literal sse/
    or the inbound Accept header value contains text/event-stream
    (case-sensitive, as in the source). -/
def mainIsSse (path accept : String) : Bool :=
  isPrefixL "sse/".data path.data || strContains accept "text/event-stream"

/-- Models src/services/circuit.py lines 116-119: the upstream client streams the
    response with no deadline iff the lower-cased full URL contains the substring
    sse/ or some header whose lower-cased name is accept has a value whose
    lower-cased form contains text/event-stream. -/
def circuitIsSse (url : String) (headers : List (String × String)) : Bool :=
  containsL "sse/".data (lowerL url.data) ||
    headers.any (fun h => lowerL h.1.data == "accept".data &&
      containsL "text/event-stream".data (lowerL h.2.data))

/-- Models src/main.py line 198: target_url = service_url + "/" + path. -/
def buildTargetUrl (base path : String) : String := base ++ "/" ++ path

/- ---------- JSON values, decoding and re-encoding ----------
   The gateway decodes upstream bodies with response.json() (Python json.loads)
   and re-emits them through a JSON response whose render step is
   json.dumps(content, ensure_ascii=False, separators=(",", ":")).
   The codec below models those two library functions on the JSON fragment
   without floats, exponents and escape sequences: a body inside the fragment
   is decoded and re-encoded exactly as Python does. -/

inductive JsonVal where
  | null
  | bool (b : Bool)
  | num (n : Int)
  | str (s : String)
  | arr (elems : List JsonVal)
  | obj (fields : List (String × JsonVal))

mutual

/-- Compact serialization; models json.dumps with separators ("," and ":"),
    as used by the JSON response render step. -/
def serializeJson : JsonVal → String
  | .null => "null"
  | .bool true => "true"
  | .bool false => "false"
  | .num n => toString n
  | .str s => "\"" ++ s ++ "\""
  | .arr es => "[" ++ serializeElems es ++ "]"
  | .obj fs => "\x7b" ++ serializeFields fs ++ "\x7d"

/-- Comma-joined serialization of array elements. -/
def serializeElems : List JsonVal → String
  | [] => ""
  | [e] => serializeJson e
  | e :: es => serializeJson e ++ "," ++ serializeElems es

/-- Comma-joined serialization of object fields, key and value joined by a colon. -/
def serializeFields : List (String × JsonVal) → String
  | [] => ""
  | [(k, v)] => "\"" ++ k ++ "\":" ++ serializeJson v
  | (k, v) :: fs => "\"" ++ k ++ "\":" ++ serializeJson v ++ "," ++ serializeFields fs

end

/-- JSON whitespace skipping (space, tab, newline, carriage return). -/
def skipWs : List Char → List Char
  | [] => []
  | c :: cs => if c == ' ' || c == '\t' || c == '\n' || c == '\r' then skipWs cs else c :: cs

/-- Decimal digit test. -/
def isDigitC (c : Char) : Bool := 48 ≤ c.toNat && c.toNat ≤ 57

/-- Accumulate a run of decimal digits. -/
def readDigits : List Char → Nat → Nat × List Char
  | [], acc => (acc, [])
  | c :: cs, acc =>
    if isDigitC c then readDigits cs (acc * 10 + (c.toNat - 48)) else (acc, c :: cs)

/-- Parse an integer literal with optional leading minus sign. -/
def parseNum : List Char → Option (Int × List Char)
  | [] => none
  | '-' :: rest =>
    match rest with
    | [] => none
    | c :: _ =>
      if isDigitC c then
        let p := readDigits rest 0
        some (-(p.1 : Int), p.2)
      else none
  | c :: cs =>
    if isDigitC c then
      let p := readDigits (c :: cs) 0
      some ((p.1 : Int), p.2)
    else none

/-- Parse a string body after the opening quote, up to the closing quote.
    Escape sequences are outside the modelled fragment and fail the parse. -/
def parseStrBody : List Char → Option (List Char × List Char)
  | [] => none
  | c :: cs =>
    if c == '"' then some ([], cs)
    else if c == '\\' then none
    else
      match parseStrBody cs with
      | some (s, rest) => some (c :: s, rest)
      | none => none

mutual

/-- Fuel-indexed recursive-descent JSON value parser; models json.loads on the
    fragment described above. Every recursive call consumes input, so fuel equal
    to the input length plus one never runs out. -/
def parseVal : Nat → List Char → Option (JsonVal × List Char)
  | 0, _ => none
  | fuel + 1, s =>
    match skipWs s with
    | [] => none
    | c :: cs =>
      if c == '\x7b' then
        match skipWs cs with
        | '\x7d' :: rest => some (.obj [], rest)
        | cs2 =>
          match parseFields fuel cs2 with
          | some (fs, rest) => some (.obj fs, rest)
          | none => none
      else if c == '[' then
        match skipWs cs with
        | ']' :: rest => some (.arr [], rest)
        | cs2 =>
          match parseElems fuel cs2 with
          | some (es, rest) => some (.arr es, rest)
          | none => none
      else if c == '"' then
        match parseStrBody cs with
        | some (b, rest) => some (.str (String.mk b), rest)
        | none => none
      else if isPrefixL "true".data (c :: cs) then some (.bool true, (c :: cs).drop 4)
      else if isPrefixL "false".data (c :: cs) then some (.bool false, (c :: cs).drop 5)
      else if isPrefixL "null".data (c :: cs) then some (.null, (c :: cs).drop 4)
      else
        match parseNum (c :: cs) with
        | some (n, rest) => some (.num n, rest)
        | none => none

/-- Parse one or more comma-separated array elements up to the closing bracket. -/
def parseElems : Nat → List Char → Option (List JsonVal × List Char)
  | 0, _ => none
  | fuel + 1, s =>
    match parseVal fuel s with
    | none => none
    | some (v, rest) =>
      match skipWs rest with
      | ',' :: rest2 =>
        match parseElems fuel rest2 with
        | some (es, rest3) => some (v :: es, rest3)
        | none => none
      | ']' :: rest2 => some ([v], rest2)
      | _ => none

/-- Parse one or more comma-separated object fields up to the closing brace. -/
def parseFields : Nat → List Char → Option (List (String × JsonVal) × List Char)
  | 0, _ => none
  | fuel + 1, s =>
    match skipWs s with
    | '"' :: cs =>
      match parseStrBody cs with
      | none => none
      | some (k, rest) =>
        match skipWs rest with
        | ':' :: rest2 =>
          match parseVal fuel rest2 with
          | none => none
          | some (v, rest3) =>
            match skipWs rest3 with
            | ',' :: rest4 =>
              match parseFields fuel rest4 with
              | some (fs, rest5) => some ((String.mk k, v) :: fs, rest5)
              | none => none
            | '\x7d' :: rest4 => some ([(String.mk k, v)], rest4)
            | _ => none
        | _ => none
    | _ => none

end

/-- Models json.loads on a whole body: parse one value and require that only
    whitespace remains; any other input raises JSONDecodeError, modelled none. -/
def jsonLoads (s : String) : Option JsonVal :=
  match parseVal (s.length + 1) s.data with
  | some (j, rest) => if skipWs rest == [] then some j else none
  | none => none

/- ---------- circuit breaker state (src/services/circuit.py) ---------- -/

/-- The three values of the state field of a circuit dictionary: the Python
    strings closed, half-open and open. -/
inductive CState where
  | closed
  | halfOpen
  | opened
deriving DecidableEq

/-- Models the per-service circuit dictionary built by initialize_circuit_state
    (src/services/circuit.py lines 73-84). Counters are Int as in Python; times
    (seconds) and the backoff factor are Rat. -/
structure CircuitState where
  state : CState
  failure_count : Int
  failure_threshold : Int
  timeout : Rat
  opened_at : Rat
  consecutive_successes : Int
  success_threshold : Int
  request_timeout : Rat
  backoff_factor : Rat
  retry_count : Int
deriving DecidableEq

/-- Models initialize_circuit_state (src/services/circuit.py lines 36-84):
    the per-service policy table with the default row, and the fresh closed
    circuit dictionary. Field order: state, failure_count, failure_threshold,
    timeout, opened_at, consecutive_successes, success_threshold,
    request_timeout, backoff_factor, retry_count. -/
def initialize_circuit_state (service : String) : CircuitState :=
  if service == "image" then ⟨.closed, 0, 8, 45, 0, 0, 3, 60, 3 / 2, 0⟩
  else if service == "video" then ⟨.closed, 0, 8, 45, 0, 0, 3, 60, 3 / 2, 0⟩
  else if service == "core" then ⟨.closed, 0, 5, 15, 0, 0, 2, 25, 6 / 5, 0⟩
  else ⟨.closed, 0, 5, 30, 0, 0, 2, 20, 1, 0⟩

/-- effective_dwell as computed inline at src/services/circuit.py lines 99-100:
    timeout times min(5, 1 + retry_count * backoff_factor). -/
def effectiveDwell (st : CircuitState) : Rat :=
  st.timeout * min 5 (1 + (st.retry_count : Rat) * st.backoff_factor)

/-- Python int() truncation toward zero on a rational number of seconds. -/
def ratTrunc (q : Rat) : Int := if q < 0 then -(Rat.floor (-q)) else Rat.floor q

/-- The 503 detail string raised at src/services/circuit.py lines 110-113. -/
def circuitOpenDetail (service : String) (tr : Int) : String :=
  "Circuit open for service \x27" ++ service ++ "\x27. Retry in ~" ++ toString tr ++ "s"

/-- Rejection data carried by the HTTPException raised on an open circuit:
    status code 503, the exact remaining dwell in seconds, and the detail
    string showing the truncated remaining dwell. -/
structure RejectInfo where
  statusCode : Int
  retryAfterExact : Rat
  detail : String
deriving DecidableEq

/-- Models the entry check of call_service_with_status
    (src/services/circuit.py lines 96-113): on an open circuit, either
    transition to half-open (incrementing retry_count) and proceed, or leave
    the state untouched and reject with 503. On closed and half-open circuits
    the request proceeds with no state change. Returns the state after the
    check plus the rejection, none meaning proceed. -/
def checkCircuit (service : String) (st : CircuitState) (now : Rat) :
    CircuitState × Option RejectInfo :=
  match st.state with
  | .opened =>
    let twb := effectiveDwell st
    if now - st.opened_at > twb then
      ({ st with state := .halfOpen, retry_count := st.retry_count + 1 }, none)
    else
      (st, some ⟨503, st.opened_at + twb - now,
        circuitOpenDetail service (ratTrunc (st.opened_at + twb - now))⟩)
  | _ => (st, none)

/-- Models the success-update block of the non-SSE path
    (src/services/circuit.py lines 196-204): closed decays failure_count by
    one (floored at zero); half-open counts a consecutive success and closes
    the circuit, resetting every counter, on reaching success_threshold. -/
def successUpdate (st : CircuitState) : CircuitState :=
  match st.state with
  | .closed => { st with failure_count := max 0 (st.failure_count - 1) }
  | .halfOpen =>
    if st.consecutive_successes + 1 ≥ st.success_threshold then
      { st with
        state := .closed,
        consecutive_successes := 0,
        failure_count := 0,
        retry_count := 0 }
    else { st with consecutive_successes := st.consecutive_successes + 1 }
  | .opened => st

/-- Models the guard at src/services/circuit.py line 195: the success update
    runs only for upstream status codes below 500; other responses leave the
    circuit untouched. -/
def updateOnResponse (st : CircuitState) (statusCode : Int) : CircuitState :=
  if statusCode < 500 then successUpdate st else st

/-- Models the exception handler of call_service_with_status
    (src/services/circuit.py lines 228-237): only a closed circuit records the
    failure, incrementing failure_count and opening the circuit with
    opened_at = now when the count reaches failure_threshold. Any other state,
    including half-open, is left unchanged by the handler. -/
def recordFailure (st : CircuitState) (now : Rat) : CircuitState :=
  match st.state with
  | .closed =>
    if st.failure_count + 1 ≥ st.failure_threshold then
      { st with
        state := .opened,
        failure_count := st.failure_count + 1,
        opened_at := now }
    else { st with failure_count := st.failure_count + 1 }
  | _ => st

/- ---------- the non-SSE proxied call ---------- -/

/-- Outcome of the single upstream HTTP attempt: a response with status, body
    and content-type header, or one of the exception classes discriminated at
    src/services/circuit.py lines 250-254. -/
inductive Upstream where
  | resp (status : Int) (body : String) (contentType : Option String)
  | timeoutExc (msg : String)
  | requestExc (msg : String)
  | otherExc (msg : String)
deriving DecidableEq

/-- An upstream outcome that raises an exception. -/
def upstreamIsFailure : Upstream → Bool
  | .resp _ _ _ => false
  | .timeoutExc _ => true
  | .requestExc _ => true
  | .otherExc _ => true

/-- What the gateway hands back to the client for a non-SSE call: a JSON
    response re-encoded from the decoded body, a raw response with the upstream
    text and content type, or a raised HTTPException with status and detail. -/
inductive GwResult where
  | jsonRes (status : Int) (body : String)
  | rawRes (status : Int) (body : String) (mediaType : String)
  | httpError (status : Int) (detail : String)
deriving DecidableEq

/-- Status code carried by a gateway result. -/
def resultStatus : GwResult → Int
  | .jsonRes s _ => s
  | .rawRes s _ _ => s
  | .httpError s _ => s

/-- Models the response relay at src/services/circuit.py lines 208-222: try to
    decode the body as JSON and re-emit it as a JSON response with the upstream
    status; on decode failure return the body text with the upstream status and
    the content-type header, defaulting to text/plain. -/
def relayBody (status : Int) (body : String) (contentType : Option String) : GwResult :=
  match jsonLoads body with
  | some j => .jsonRes status (serializeJson j)
  | none => .rawRes status body (contentType.getD "text/plain")

/-- Models the non-SSE body of the try/except in call_service_with_status
    (src/services/circuit.py lines 174-254) once the entry check has passed:
    a response updates the circuit through the status guard and is relayed; an
    exception records a failure and is re-raised as 504, 503 or 500 with the
    detail strings of lines 250-254. -/
def afterEntry (service : String) (st : CircuitState) (now : Rat) (u : Upstream) :
    CircuitState × GwResult :=
  match u with
  | .resp status body ct => (updateOnResponse st status, relayBody status body ct)
  | .timeoutExc _ =>
    (recordFailure st now,
      .httpError 504 ("Service \x27" ++ service ++ "\x27 request timed out"))
  | .requestExc m =>
    (recordFailure st now,
      .httpError 503 ("Service \x27" ++ service ++ "\x27 unavailable: " ++ m))
  | .otherExc m =>
    (recordFailure st now, .httpError 500 ("Error calling service: " ++ m))

/-- Models a whole non-SSE invocation of call_service_with_status for one
    service whose circuit dictionary is st at wall time now, with the upstream
    attempt resolving to u: the entry check either rejects fast with 503 or
    proceeds into the try/except body. Returns the final circuit state and the
    client-visible result. -/
def callNonSse (service : String) (st : CircuitState) (now : Rat) (u : Upstream) :
    CircuitState × GwResult :=
  match checkCircuit service st now with
  | (st1, none) => afterEntry service st1 now u
  | (st1, some rej) => (st1, .httpError rej.statusCode rej.detail)

/- ---------- health monitor (src/services/health_service.py, src/routes/health.py) ---------- -/

/-- A test definition as stored in services_config
    (src/services/health_service.py lines 38-70). -/
structure TestDefn where
  name : String
  method : String
  path : String
  expected_status : List Int

/-- Outcome of the probe HTTP call inside run_test: a response with its status
    code, or a raised exception with its text. -/
inductive ProbeOutcome where
  | resp (status : Int)
  | exc (msg : String)
deriving DecidableEq

/-- The result dictionary returned by HealthService.run_test. updated_at
    (datetime.utcnow) is an abstract timestamp. -/
structure RunRecord where
  service_name : String
  test_name : String
  last_status : String
  error_message : Option String
  duration_ms : Int
  updated_at : Int
deriving DecidableEq

/-- Models HealthService.run_test (src/services/health_service.py lines
    72-135) with the effects made explicit: configured says whether the
    service is in services_config, out is the outcome of the HTTP call, dur is
    the measured elapsed milliseconds and now the current timestamp. The
    source returns early with status NA when the service is not configured,
    with an unsupported-method error for methods other than GET and POST,
    classifies a received status against expected_status, and converts any
    raised exception into an ERROR record carrying the exception text. -/
def run_test (configured : Bool) (service_name : String) (t : TestDefn)
    (out : ProbeOutcome) (dur now : Int) : RunRecord :=
  if configured = false then
    ⟨service_name, t.name, "NA", some "Service not configured", 0, now⟩
  else if t.method == "GET" || t.method == "POST" then
    match out with
    | .resp s =>
      if s ∈ t.expected_status then ⟨service_name, t.name, "OK", none, dur, now⟩
      else
        ⟨service_name, t.name, "ERROR",
          some ("Unexpected status code: " ++ toString s), dur, now⟩
    | .exc m => ⟨service_name, t.name, "ERROR", some m, dur, now⟩
  else ⟨service_name, t.name, "ERROR", some ("Unsupported method: " ++ t.method), 0, now⟩

/-- The fields of a stored test result that the dashboard aggregation reads
    (src/routes/health.py lines 120-149); the presentation-only fields
    (error, duration, updated_at) do not influence the derived status. -/
structure HealthRow where
  service_name : String
  test_name : String
  last_status : String
deriving DecidableEq

/-- Models the per-service status derivation of get_health_dashboard
    (src/routes/health.py lines 120-142): the status of a service starts at OK
    and is set to ERROR by each of its rows whose last_status is ERROR. The
    loop touches exactly the rows of the given service, in list order, so the
    derivation is the fold below over the filtered rows. -/
def dashServiceStatus (results : List HealthRow) (svc : String) : String :=
  (results.filter fun r => r.service_name == svc).foldl
    (fun acc r => if r.last_status == "ERROR" then "ERROR" else acc) "OK"

/- ---------- shared lemmas about the embedding ---------- -/

theorem string_eq_of_data (a b : String) (h : a.data = b.data) : a = b := by
  cases a with
  | mk la =>
    cases b with
    | mk lb => exact congrArg String.mk h

theorem checkCircuit_open_eq (service : String) (st : CircuitState) (now : Rat)
    (h : st.state = .opened) :
    checkCircuit service st now =
      if now - st.opened_at > effectiveDwell st then
        ({ st with state := .halfOpen, retry_count := st.retry_count + 1 }, none)
      else
        (st, some ⟨503, st.opened_at + effectiveDwell st - now,
          circuitOpenDetail service (ratTrunc (st.opened_at + effectiveDwell st - now))⟩) := by
  unfold checkCircuit
  rw [h]

theorem checkCircuit_notOpen (service : String) (st : CircuitState) (now : Rat)
    (h : st.state ≠ .opened) :
    checkCircuit service st now = (st, none) := by
  unfold checkCircuit
  cases hs : st.state with
  | closed => rfl
  | halfOpen => rfl
  | opened => exact absurd hs h

theorem dashFoldChar (l : List HealthRow) (acc : String) :
    l.foldl (fun a r => if r.last_status == "ERROR" then "ERROR" else a) acc
      = if l.any (fun r => r.last_status == "ERROR") then "ERROR" else acc := by
  induction l generalizing acc with
  | nil => simp
  | cons r rs ih =>
    simp only [List.foldl_cons, List.any_cons, Bool.or_eq_true, ih]
    by_cases h : (r.last_status == "ERROR") = true
    · simp [h]
    · simp [h]

/- ---------- claim theorems ---------- -/

/-- C3: for every service whose circuit is open, the entry check lets the
    request proceed iff now minus opened_at strictly exceeds
    effective_dwell = base_timeout_seconds * min(5, 1 + retry_count * backoff_factor);
    on proceeding the state becomes half-open and retry_count grows by exactly
    one; otherwise the request is rejected with status 503 carrying a
    retry-after of opened_at + effective_dwell - now seconds (its truncation
    shown in the detail). -/
theorem c3_open_entry_check (service : String) (st : CircuitState) (now : Rat)
    (h : st.state = .opened) :
    ((checkCircuit service st now).2 = none ↔ now - st.opened_at > effectiveDwell st) ∧
    (now - st.opened_at > effectiveDwell st →
      checkCircuit service st now =
        ({ st with state := .halfOpen, retry_count := st.retry_count + 1 }, none)) ∧
    (¬ now - st.opened_at > effectiveDwell st →
      checkCircuit service st now =
        (st, some ⟨503, st.opened_at + effectiveDwell st - now,
          circuitOpenDetail service (ratTrunc (st.opened_at + effectiveDwell st - now))⟩)) := by
  have e := checkCircuit_open_eq service st now h
  by_cases hc : now - st.opened_at > effectiveDwell st
  · rw [if_pos hc] at e
    exact ⟨by rw [e]; exact iff_of_true rfl hc, fun _ => e, fun hnc => absurd hc hnc⟩
  · rw [if_neg hc] at e
    exact ⟨by rw [e]; exact iff_of_false (by simp) hc, fun h2 => absurd h2 hc, fun _ => e⟩

/-- A circuit that has tripped open under the default policy row, used to
    instantiate the open-state theorems. -/
def stTripped : CircuitState := ⟨.opened, 5, 5, 30, 0, 0, 2, 20, 1, 0⟩

/-- Witness for C3: the tripped circuit at wall time 100 (dwell 30 elapsed)
    proceeds into half-open with retry_count 1. -/
theorem c3_witness :
    checkCircuit "payments" stTripped 100 =
      ({ stTripped with state := .halfOpen, retry_count := stTripped.retry_count + 1 },
        none) :=
  (c3_open_entry_check "payments" stTripped 100 rfl).2.1
    (by norm_num [effectiveDwell, stTripped, min_eq_right])

/-- C6: a request rejected because the circuit is open and the dwell has not
    elapsed leaves every field of the circuit state unchanged, is not counted
    as a failure regardless of what the upstream outcome would have been, and
    yields a 503 whose detail contains the text Retry in ~. -/
theorem c6_reject_frame (service : String) (st : CircuitState) (now : Rat) (u : Upstream)
    (h : st.state = .opened)
    (h2 : ¬ now - st.opened_at > effectiveDwell st) :
    callNonSse service st now u =
      (st, .httpError 503
        (circuitOpenDetail service (ratTrunc (st.opened_at + effectiveDwell st - now)))) ∧
    ∃ a b : String,
      circuitOpenDetail service (ratTrunc (st.opened_at + effectiveDwell st - now)) =
        a ++ "Retry in ~" ++ b := by
  have e := checkCircuit_open_eq service st now h
  rw [if_neg h2] at e
  constructor
  · unfold callNonSse
    rw [e]
  · refine ⟨"Circuit open for service \x27" ++ service ++ "\x27. ",
      toString (ratTrunc (st.opened_at + effectiveDwell st - now)) ++ "s", ?_⟩
    apply string_eq_of_data
    simp only [circuitOpenDetail, string_data_append, List.append_assoc]
    rfl

/-- Witness for C6: the tripped circuit at wall time 10 (dwell 30 not elapsed)
    rejects with 503 and an unchanged state. -/
theorem c6_witness :
    callNonSse "payments" stTripped 10 (.requestExc "conn refused") =
      (stTripped, .httpError 503
        (circuitOpenDetail "payments"
          (ratTrunc (stTripped.opened_at + effectiveDwell stTripped - 10)))) ∧
    ∃ a b : String,
      circuitOpenDetail "payments"
          (ratTrunc (stTripped.opened_at + effectiveDwell stTripped - 10)) =
        a ++ "Retry in ~" ++ b :=
  c6_reject_frame "payments" stTripped 10 (.requestExc "conn refused") rfl
    (by norm_num [effectiveDwell, stTripped, min_eq_right])

/-- C1: contrary to the claim, a failure recorded while the circuit is
    half-open does NOT return the circuit to open: the exception handler of
    call_service_with_status only updates a closed circuit, so the whole state
    (half-open included) is left unchanged. This theorem documents the code
    behavior at the failing input class of the claim. -/
theorem c1_half_open_failure_not_recorded (service : String) (st : CircuitState)
    (now : Rat) (m : String) (h : st.state = .halfOpen) :
    (callNonSse service st now (.requestExc m)).1 = st ∧
    (callNonSse service st now (.requestExc m)).1.state = .halfOpen := by
  have hne : st.state ≠ .opened := by rw [h]; simp
  have e := checkCircuit_notOpen service st now hne
  have hr : recordFailure st now = st := by
    unfold recordFailure
    rw [h]
  have h1 : (callNonSse service st now (.requestExc m)).1 = st := by
    unfold callNonSse
    rw [e]
    simp [afterEntry, hr]
  exact ⟨h1, by rw [h1, h]⟩

/-- A circuit probing in half-open state (after one dwell expiry under the
    core policy row), used to instantiate the half-open theorems. -/
def stProbing : CircuitState := ⟨.halfOpen, 5, 5, 15, 20, 0, 2, 25, 6 / 5, 1⟩

/-- Witness for C1: a connection error recorded while the core circuit is
    half-open leaves the state dictionary untouched and still half-open. -/
theorem c1_witness :
    (callNonSse "core" stProbing 30 (.requestExc "conn reset")).1 = stProbing ∧
    (callNonSse "core" stProbing 30 (.requestExc "conn reset")).1.state = .halfOpen :=
  c1_half_open_failure_not_recorded "core" stProbing 30 "conn reset" rfl

/-- C4: for a closed circuit, each recorded failure (any raised upstream
    exception) increments failure_count by exactly one, and when the count
    reaches failure_threshold the circuit opens with opened_at set to the
    current time; below the threshold only the counter changes. -/
theorem c4_closed_failure_count (service : String) (st : CircuitState) (now : Rat)
    (u : Upstream) (h : st.state = .closed) (hf : upstreamIsFailure u = true) :
    (callNonSse service st now u).1 = recordFailure st now ∧
    (recordFailure st now).failure_count = st.failure_count + 1 ∧
    (st.failure_count + 1 ≥ st.failure_threshold →
      recordFailure st now =
        { st with
          state := .opened,
          failure_count := st.failure_count + 1,
          opened_at := now }) ∧
    (st.failure_count + 1 < st.failure_threshold →
      recordFailure st now = { st with failure_count := st.failure_count + 1 }) := by
  have hne : st.state ≠ .opened := by rw [h]; simp
  have e := checkCircuit_notOpen service st now hne
  have er : recordFailure st now =
      if st.failure_count + 1 ≥ st.failure_threshold then
        { st with
          state := .opened,
          failure_count := st.failure_count + 1,
          opened_at := now }
      else { st with failure_count := st.failure_count + 1 } := by
    unfold recordFailure
    rw [h]
  refine ⟨?_, ?_, ?_, ?_⟩
  · unfold callNonSse
    rw [e]
    cases u with
    | resp s b c => simp [upstreamIsFailure] at hf
    | timeoutExc m => simp [afterEntry]
    | requestExc m => simp [afterEntry]
    | otherExc m => simp [afterEntry]
  · rw [er]
    by_cases hth : st.failure_count + 1 ≥ st.failure_threshold
    · rw [if_pos hth]
    · rw [if_neg hth]
  · intro hth
    rw [er, if_pos hth]
  · intro hth
    rw [er, if_neg (not_le.mpr hth)]

/-- A closed circuit one failure short of the default threshold. -/
def stAlmostOpen : CircuitState := ⟨.closed, 4, 5, 30, 0, 0, 2, 20, 1, 0⟩

/-- Witness for C4: the fifth failure at wall time 7 opens the circuit with
    opened_at 7. -/
theorem c4_witness :
    (callNonSse "user" stAlmostOpen 7 (.timeoutExc "t")).1 = recordFailure stAlmostOpen 7 ∧
    recordFailure stAlmostOpen 7 =
      { stAlmostOpen with
        state := .opened,
        failure_count := stAlmostOpen.failure_count + 1,
        opened_at := 7 } :=
  ⟨(c4_closed_failure_count "user" stAlmostOpen 7 (.timeoutExc "t") rfl rfl).1,
    (c4_closed_failure_count "user" stAlmostOpen 7 (.timeoutExc "t") rfl rfl).2.2.1
      (by decide)⟩

/-- C5: for a half-open circuit, a success recorded with upstream status below
    500 advances consecutive_successes by exactly one; on reaching
    success_threshold the circuit closes with failure_count,
    consecutive_successes and retry_count all reset to 0, and below the
    threshold only the success counter changes. -/
theorem c5_half_open_success (service : String) (st : CircuitState) (now : Rat)
    (status : Int) (body : String) (ct : Option String)
    (h : st.state = .halfOpen) (h5 : status < 500) :
    (callNonSse service st now (.resp status body ct)).1 = successUpdate st ∧
    (st.consecutive_successes + 1 ≥ st.success_threshold →
      successUpdate st =
        { st with
          state := .closed,
          consecutive_successes := 0,
          failure_count := 0,
          retry_count := 0 }) ∧
    (st.consecutive_successes + 1 < st.success_threshold →
      successUpdate st = { st with consecutive_successes := st.consecutive_successes + 1 }) := by
  have hne : st.state ≠ .opened := by rw [h]; simp
  have e := checkCircuit_notOpen service st now hne
  have es : successUpdate st =
      if st.consecutive_successes + 1 ≥ st.success_threshold then
        { st with
          state := .closed,
          consecutive_successes := 0,
          failure_count := 0,
          retry_count := 0 }
      else { st with consecutive_successes := st.consecutive_successes + 1 } := by
    unfold successUpdate
    rw [h]
  refine ⟨?_, ?_, ?_⟩
  · unfold callNonSse
    rw [e]
    simp [afterEntry, updateOnResponse, if_pos h5]
  · intro hth
    rw [es, if_pos hth]
  · intro hth
    rw [es, if_neg (not_le.mpr hth)]

/-- A half-open circuit one success short of the default success threshold. -/
def stRecovering : CircuitState := ⟨.halfOpen, 3, 5, 30, 40, 1, 2, 20, 1, 2⟩

/-- Witness for C5: the second consecutive success with status 204 closes the
    circuit and resets every counter. -/
theorem c5_witness :
    (callNonSse "user" stRecovering 90 (.resp 204 "" none)).1 = successUpdate stRecovering ∧
    successUpdate stRecovering =
      { stRecovering with
        state := .closed,
        consecutive_successes := 0,
        failure_count := 0,
        retry_count := 0 } :=
  ⟨(c5_half_open_success "user" stRecovering 90 204 "" none rfl (by decide)).1,
    (c5_half_open_success "user" stRecovering 90 204 "" none rfl (by decide)).2.1
      (by decide)⟩

/-- C2 counterexample: a fresh closed circuit for service core receives a
    non-SSE upstream response with status 500; contrary to the claim, the
    recorded failure count stays 0 and nothing in the circuit state changes. -/
theorem c2_cex :
    (initialize_circuit_state "core").state = .closed ∧
    (initialize_circuit_state "core").failure_count = 0 ∧
    (callNonSse "core" (initialize_circuit_state "core") 0 (.resp 500 "boom" none)).1 =
      initialize_circuit_state "core" :=
  ⟨rfl, rfl, rfl⟩

/-- C2 amended: a non-SSE upstream response with status at least 500 is
    relayed to the client with its status, but the breaker records nothing:
    in both the closed and the half-open state every field of the circuit is
    unchanged (no failure_count increment, no half-open to open transition);
    only raised transport exceptions record failures. -/
theorem c2_amended (service : String) (st : CircuitState) (now : Rat)
    (status : Int) (body : String) (ct : Option String)
    (h : st.state = .closed ∨ st.state = .halfOpen) (h5 : 500 ≤ status) :
    callNonSse service st now (.resp status body ct) = (st, relayBody status body ct) := by
  have hne : st.state ≠ .opened := by
    rcases h with h | h <;> rw [h] <;> simp
  have e := checkCircuit_notOpen service st now hne
  unfold callNonSse
  rw [e]
  simp [afterEntry, updateOnResponse, if_neg (not_lt.mpr h5)]

/-- Witness for C2 (amended): a closed circuit relays a 502 unchanged. -/
theorem c2_witness :
    callNonSse "user" (initialize_circuit_state "user") 0 (.resp 502 "bad" none) =
      (initialize_circuit_state "user", relayBody 502 "bad" none) :=
  c2_amended "user" (initialize_circuit_state "user") 0 502 "bad" none
    (Or.inl rfl) (by decide)

/-- C8 counterexample: a closed core circuit relays the upstream body
    \x7b"a": 1\x7d (bytes with a space after the colon) as the re-encoded
    compact JSON \x7b"a":1\x7d; the status is preserved but the body bytes
    are not identical to the upstream body. -/
theorem c8_cex :
    (callNonSse "core" (initialize_circuit_state "core") 0
        (.resp 200 "\x7b\"a\": 1\x7d" none)).2 = .jsonRes 200 "\x7b\"a\":1\x7d" ∧
    ("\x7b\"a\":1\x7d" : String) ≠ "\x7b\"a\": 1\x7d" :=
  ⟨by decide, by decide⟩

/-- C8 amended: for a closed circuit and an upstream response, the status
    code delivered to the client is always identical to the upstream status;
    the body bytes are identical exactly when the body does not decode as
    JSON (raw relay), while a body that decodes as JSON is re-emitted as its
    compact re-serialization, which can differ from the upstream bytes. -/
theorem c8_amended (service : String) (st : CircuitState) (now : Rat)
    (status : Int) (body : String) (ct : Option String) (h : st.state = .closed) :
    resultStatus (callNonSse service st now (.resp status body ct)).2 = status ∧
    (jsonLoads body = none →
      (callNonSse service st now (.resp status body ct)).2 =
        .rawRes status body (ct.getD "text/plain")) ∧
    (∀ j, jsonLoads body = some j →
      (callNonSse service st now (.resp status body ct)).2 =
        .jsonRes status (serializeJson j)) := by
  have hne : st.state ≠ .opened := by rw [h]; simp
  have e := checkCircuit_notOpen service st now hne
  have e2 : (callNonSse service st now (.resp status body ct)).2 = relayBody status body ct := by
    unfold callNonSse
    rw [e]
    simp [afterEntry]
  refine ⟨?_, ?_, ?_⟩
  · rw [e2]
    unfold relayBody
    cases hj : jsonLoads body with
    | none => simp [resultStatus]
    | some j => simp [resultStatus]
  · intro hn
    rw [e2]
    simp [relayBody, hn]
  · intro j hj
    rw [e2]
    simp [relayBody, hj]

/-- Witness for C8 (amended): a closed circuit relays a 404 status verbatim
    and a non-JSON body byte-identically. -/
theorem c8_witness :
    resultStatus (callNonSse "core" (initialize_circuit_state "core") 0
      (.resp 404 "not found" none)).2 = 404 ∧
    (callNonSse "core" (initialize_circuit_state "core") 0
      (.resp 404 "not found" none)).2 = .rawRes 404 "not found" "text/plain" :=
  ⟨(c8_amended "core" (initialize_circuit_state "core") 0 404 "not found" none rfl).1,
    (c8_amended "core" (initialize_circuit_state "core") 0 404 "not found" none rfl).2.1
      rfl⟩

/-- C7 counterexample: the request with path v1/sse/x and empty Accept header
    satisfies neither of the claimed conditions (the path does not begin with
    sse/ and Accept does not mention text/event-stream), yet the upstream
    client classifies it as SSE (streamed passthrough with no deadline)
    because the target URL contains the substring sse/. -/
theorem c7_cex :
    mainIsSse "v1/sse/x" "" = false ∧
    circuitIsSse (buildTargetUrl "http://h:1" "v1/sse/x") [("x-from-gateway", "true")] = true :=
  ⟨by decide, by decide⟩

/-- C7 amended: the two SSE classifiers differ. The proxy handler bypasses
    admission iff the path begins with sse/ or the Accept value contains
    text/event-stream; the upstream client streams without deadline iff the
    lower-cased target URL contains sse/ or a header named accept contains
    text/event-stream case-insensitively. The first condition implies the
    second whenever the Accept header is among the forwarded headers, but not
    conversely. -/
theorem c7_amended (base path accept : String) (headers : List (String × String))
    (hmem : ("accept", accept) ∈ headers) (hmain : mainIsSse path accept = true) :
    circuitIsSse (buildTargetUrl base path) headers = true := by
  unfold mainIsSse at hmain
  rw [Bool.or_eq_true] at hmain
  unfold circuitIsSse buildTargetUrl
  rw [Bool.or_eq_true]
  rcases hmain with hp | ha
  · left
    have hdata : (base ++ "/" ++ path).data =
        base.data ++ (("/" : String).data ++ path.data) := by
      rw [string_data_append, string_data_append, List.append_assoc]
    rw [hdata]
    unfold lowerL
    rw [List.map_append, List.map_append]
    apply containsL_append_left
    apply containsL_append_left
    have h2 := isPrefixL_map Char.toLower _ _ hp
    have h3 : ("sse/" : String).data.map Char.toLower = ("sse/" : String).data := by decide
    rw [h3] at h2
    exact isPrefixL_containsL _ _ h2
  · right
    rw [List.any_eq_true]
    refine ⟨("accept", accept), hmem, ?_⟩
    rw [Bool.and_eq_true]
    constructor
    · show (lowerL ("accept" : String).data == ("accept" : String).data) = true
      decide
    · unfold strContains at ha
      have h2 := containsL_map Char.toLower _ _ ha
      have h3 : ("text/event-stream" : String).data.map Char.toLower =
          ("text/event-stream" : String).data := by decide
      rw [h3] at h2
      exact h2

/-- Witness for C7 (amended): a request with path sse/events and a forwarded
    Accept header of text/event-stream is classified as SSE by the upstream
    client as well. -/
theorem c7_witness :
    circuitIsSse (buildTargetUrl "http://h:1" "sse/events")
      [("accept", "text/event-stream")] = true :=
  c7_amended "http://h:1" "sse/events" "text/event-stream"
    [("accept", "text/event-stream")] (by decide) (by decide)

/-- C9 counterexample: a service with one passing and one failing test is
    derived by the dashboard as ERROR, not as the claimed DEGRADED. -/
theorem c9_cex :
    dashServiceStatus [⟨"a", "t1", "OK"⟩, ⟨"a", "t2", "ERROR"⟩] "a" = "ERROR" ∧
    ("ERROR" : String) ≠ "DEGRADED" :=
  ⟨by decide, by decide⟩

/-- C9 amended: the dashboard derives a per-service status of ERROR exactly
    when at least one of the rows of that service has last_status ERROR, and
    OK otherwise; the statuses DEGRADED and DOWN are never produced. -/
theorem c9_amended (results : List HealthRow) (svc : String) :
    (dashServiceStatus results svc = "ERROR" ↔
      ∃ r ∈ results, r.service_name = svc ∧ r.last_status = "ERROR") ∧
    (dashServiceStatus results svc = "OK" ∨ dashServiceStatus results svc = "ERROR") := by
  have hch : dashServiceStatus results svc =
      if (results.filter fun r => r.service_name == svc).any
          (fun r => r.last_status == "ERROR")
      then "ERROR" else "OK" := dashFoldChar _ _
  have key : ((results.filter fun r => r.service_name == svc).any
        (fun r => r.last_status == "ERROR") = true)
      ↔ ∃ r ∈ results, r.service_name = svc ∧ r.last_status = "ERROR" := by
    simp [List.any_eq_true, List.mem_filter, beq_iff_eq, and_assoc]
  constructor
  · rw [hch]
    by_cases h : (results.filter fun r => r.service_name == svc).any
        (fun r => r.last_status == "ERROR") = true
    · rw [if_pos h]
      exact iff_of_true rfl (key.mp h)
    · rw [if_neg h]
      exact iff_of_false (by decide) (fun hex => h (key.mpr hex))
  · rw [hch]
    by_cases h : (results.filter fun r => r.service_name == svc).any
        (fun r => r.last_status == "ERROR") = true
    · rw [if_pos h]
      exact Or.inr rfl
    · rw [if_neg h]
      exact Or.inl rfl

/-- C10: run_test is a total function into result records: for every input
    the record carries the given service_name and test_name, and when the
    service is configured, the method is GET or POST and the HTTP call raises
    an exception, the record has last_status ERROR, error_message equal to the
    exception text and the measured duration, so a failing probe cannot abort
    the monitoring loop. -/
theorem c10_run_test_total (configured : Bool) (svc : String) (t : TestDefn)
    (out : ProbeOutcome) (dur now : Int) :
    ((run_test configured svc t out dur now).service_name = svc ∧
     (run_test configured svc t out dur now).test_name = t.name) ∧
    (configured = true → (t.method = "GET" ∨ t.method = "POST") →
      ∀ m, out = .exc m →
        run_test configured svc t out dur now = ⟨svc, t.name, "ERROR", some m, dur, now⟩) := by
  constructor
  · cases configured with
    | false => simp [run_test]
    | true =>
      cases out with
      | resp s =>
        simp only [run_test]
        split
        · simp
        · split
          · split <;> simp
          · simp
      | exc m =>
        simp only [run_test]
        split
        · simp
        · split <;> simp
  · intro hc hm m hout
    subst hout
    subst hc
    have hmethod : (t.method == "GET" || t.method == "POST") = true := by
      rcases hm with h | h <;> simp [h]
    simp [run_test, hmethod]

/-- Witness for C10: a configured GET probe whose HTTP call raises an
    exception with text boom yields the ERROR record with that text and the
    measured duration. -/
theorem c10_witness :
    run_test true "core" ⟨"health_check", "GET", "/health", [200]⟩ (.exc "boom") 12 5 =
      ⟨"core", "health_check", "ERROR", some "boom", 12, 5⟩ :=
  (c10_run_test_total true "core" ⟨"health_check", "GET", "/health", [200]⟩
    (.exc "boom") 12 5).2 rfl (Or.inl rfl) "boom" rfl
